import Mathlib

/-!
Verification development for `readthedocs/core/unresolver.py`.

The Python module is shallowly embedded: Django querysets become explicit
list lookups over an immutable `Database` snapshot, raised exceptions become
an `Except UnresolverError` result, and the module-level settings
(`PUBLIC_DOMAIN`, `RTD_EXTERNAL_VERSION_DOMAIN`) together with the path
grammar become an explicit `Config` record passed to every function.
-/

/-- Version record: belongs to one project, identified by its slug within a
manager partition (internal or external). -/
structure Version where
  slug : String
deriving Repr, DecidableEq

/-- Manager partition of a project's versions collection, mirroring the
`INTERNAL` / `EXTERNAL` constants of `readthedocs.builds.constants`. -/
inductive Manager where
  | internal
  | external
deriving Repr, DecidableEq

/-- Project record, with the fields the unresolver reads: slug, language,
`single_version` flag, default version slug, related translations
(projects keyed by their `language`), subproject relationships
(alias paired with the child project), the two version managers, and the
set of enabled feature ids. -/
inductive Project where
  | mk
    (slug : String)
    (language : String)
    (single_version : Bool)
    (default_version : String)
    (translations : List Project)
    (subprojects : List (String × Project))
    (internal_versions : List Version)
    (external_versions : List Version)
    (features : List String)

def Project.slug : Project → String
  | .mk s _ _ _ _ _ _ _ _ => s

def Project.language : Project → String
  | .mk _ l _ _ _ _ _ _ _ => l

def Project.single_version : Project → Bool
  | .mk _ _ sv _ _ _ _ _ _ => sv

def Project.default_version : Project → String
  | .mk _ _ _ dv _ _ _ _ _ => dv

def Project.translations : Project → List Project
  | .mk _ _ _ _ t _ _ _ _ => t

def Project.subprojects : Project → List (String × Project)
  | .mk _ _ _ _ _ sp _ _ _ => sp

def Project.internal_versions : Project → List Version
  | .mk _ _ _ _ _ _ iv _ _ => iv

def Project.external_versions : Project → List Version
  | .mk _ _ _ _ _ _ _ ev _ => ev

def Project.features : Project → List String
  | .mk _ _ _ _ _ _ _ _ f => f

/-- Queryset `project.versions(manager=...)` from the source: selects the
internal or the external version partition. -/
def Project.versions (p : Project) (manager : Manager) : List Version :=
  match manager with
  | .internal => p.internal_versions
  | .external => p.external_versions

/-- Custom `Domain` record: a hostname bound to exactly one project. -/
structure Domain where
  domain : String
  project : Project

/-- Read-only snapshot of the lookup collaborator: the `Project.objects` and
`Domain.objects` querysets consulted by the unresolver. -/
structure Database where
  projects : List Project
  domains : List Domain

/-- Modelled from the spec: `Feature.RESOLVE_PROJECT_FROM_HEADER`
(`readthedocs.projects.models`, not part of src/) is the opt-in feature id
that allows resolving a project from the `X-RTD-Slug` header. -/
def RESOLVE_PROJECT_FROM_HEADER : String := "resolve_project_from_header"

/-- Error taxonomy of the module, one constructor per exception class,
carrying the same context fields the Python constructors store. -/
inductive UnresolverError where
  | suspiciousHostname (domain : String)
  | invalidSubdomain (domain : String)
  | invalidExternalDomain (domain : String)
  | invalidCustomDomain (domain : String)
  | invalidXRTDSlugHeader
  | versionNotFound (project : Project) (version_slug : Option String) (filename : String)
  | translationNotFound (project : Project) (language : String) (filename : String)
  | invalidPathForVersionedProject (project : Project) (path : String)
  | invalidExternalVersion (project : Project) (version_slug : Option String)
      (external_version_slug : String)

/-- Enum `DomainSourceType`: where the domain was resolved from. -/
inductive DomainSourceType where
  | custom_domain
  | public_domain
  | external_domain
  | http_header
deriving Repr, DecidableEq

/-- Dataclass `UnresolvedDomain`: result of domain classification. -/
structure UnresolvedDomain where
  source_domain : String
  source : DomainSourceType
  project : Project
  domain : Option Domain := none
  external_version_slug : Option String := none

/-- Property `is_from_external_domain` of `UnresolvedDomain`. -/
def UnresolvedDomain.is_from_external_domain (u : UnresolvedDomain) : Bool :=
  u.source = DomainSourceType.external_domain

/-- Dataclass `UnresolvedURL`: final result of the facade. The `parsed_url`
field of the source is kept as the path it carries, which is all the
unresolver reads from it. -/
structure UnresolvedURL where
  parent_project : Project
  project : Project
  version : Version
  filename : String
  parsed_path : String
  domain : Option Domain := none
  external : Bool := false

/-- Static configuration consumed by the unresolver: the two hosting
suffixes from settings, and the set of supported language codes.
Modelled from the spec: `pattern_opts` (`readthedocs/constants.py`) is not
part of src/; per the spec the path grammar is built from configured
slug/filename character classes, and the language segment is drawn from the
platform's supported language codes. -/
structure Config where
  publicDomain : String
  externalDomain : String
  languages : List String

/-- Truthiness of a Python `str | None` value: `None` and the empty string
are falsy, every other string is truthy. -/
def truthy (s : Option String) : Bool :=
  match s with
  | none => false
  | some v => !v.data.isEmpty

/-- Python `host.lower().split(":")[0]` from `get_domain_from_host`:
lowercase the host and strip an optional port. -/
def get_domain_from_host (host : String) : String :=
  String.mk ((host.data.map Char.toLower).takeWhile (fun c => c ≠ ':'))

/-- First label of `domain.split(".", maxsplit=1)`: the part before the
first dot (the whole string when there is no dot). -/
def subdomainOf (domain : String) : String :=
  String.mk (domain.data.takeWhile (fun c => c ≠ '.'))

/-- Second component of `domain.split(".", maxsplit=1)`: the part after the
first dot, or the empty string when there is no dot. -/
def rootDomainOf (domain : String) : String :=
  let k := (domain.data.takeWhile (fun c => c ≠ '.')).length
  if k = domain.data.length then "" else String.mk (domain.data.drop (k + 1))

/-- Python substring test `pattern in s`: some position of `s` starts an
occurrence of `pattern` (always true for the empty pattern). -/
def containsSubstring (s pattern : String) : Bool :=
  if pattern.data.isEmpty then true
  else (List.range (s.data.length + 1)).any (fun i => pattern.data.isPrefixOf (s.data.drop i))

/-- Test that `pattern` occurs in `s` starting at position `i`. -/
def occursAt (s pattern : List Char) (i : Nat) : Bool :=
  pattern.isPrefixOf (s.drop i)

/-- Python `s.rsplit(sep, maxsplit=1)` restricted to the two-part case:
split at the last occurrence of `sep`, or `none` when `sep` does not occur
(the case where tuple unpacking raises `ValueError` in the source). -/
def rsplitOnce (s sep : String) : Option (String × String) :=
  match ((List.range (s.data.length + 1)).filter (occursAt s.data sep.data)).getLast? with
  | some i => some (String.mk (s.data.take i), String.mk (s.data.drop (i + sep.data.length)))
  | none => none

/-- Queryset `Project.objects.get(slug=slug)` as a first-match lookup over
the database snapshot (`slug` is a unique key in the real schema). -/
def lookup_project (db : Database) (slug : String) : Option Project :=
  (db.projects.filter (fun p => p.slug == slug)).head?

/-- Method `_resolve_project_slug`: get the project from the slug or fail
with `InvalidSubdomainError` carrying the domain. -/
def resolve_project_slug (db : Database) (slug : String) (domain : String) :
    Except UnresolverError Project :=
  match lookup_project db slug with
  | some p => .ok p
  | none => .error (.invalidSubdomain domain)

/-- Queryset `Domain.objects.filter(domain=domain).first()`. -/
def lookup_domain (db : Database) (domain : String) : Option Domain :=
  (db.domains.filter (fun d => d.domain == domain)).head?

/-- Method `unresolve_domain`: classify a (already normalized) domain into
an `UnresolvedDomain`, or fail with a typed domain error. Branch order is
the source's: public-suffix substring check first, then external-suffix
substring check, then custom-domain lookup. -/
def unresolve_domain (cfg : Config) (db : Database) (domain : String) :
    Except UnresolverError UnresolvedDomain :=
  let public_domain := get_domain_from_host cfg.publicDomain
  let external_domain := get_domain_from_host cfg.externalDomain
  let subdomain := subdomainOf domain
  let root_domain := rootDomainOf domain
  if containsSubstring domain public_domain then
    if public_domain = root_domain then
      (resolve_project_slug db subdomain domain).map (fun p =>
        { source_domain := domain, source := .public_domain, project := p })
    else
      .error (.suspiciousHostname domain)
  else if containsSubstring domain external_domain then
    if external_domain = root_domain then
      match rsplitOnce subdomain "--" with
      | some (project_slug, version_slug) =>
        (resolve_project_slug db project_slug domain).map (fun p =>
          { source_domain := domain, source := .external_domain, project := p,
            external_version_slug := some version_slug })
      | none => .error (.invalidExternalDomain domain)
    else
      .error (.suspiciousHostname domain)
  else
    match lookup_domain db domain with
    | some domain_object =>
      .ok { source_domain := domain, source := .custom_domain,
            project := domain_object.project, domain := some domain_object }
    | none => .error (.invalidCustomDomain domain)

/-- Incoming request as the unresolver sees it: its host and the raw
`X-RTD-Slug` header (absent or present). -/
structure Request where
  host : String
  x_rtd_slug_header : Option String := none

/-- Lowercased `X-RTD-Slug` header with absent defaulting to the empty
string, as computed by `unresolve_domain_from_request`. -/
def header_slug_of (request : Request) : String :=
  String.mk ((request.x_rtd_slug_header.getD "").data.map Char.toLower)

/-- Queryset `Project.objects.filter(slug=..., feature__feature_id=Feature.RESOLVE_PROJECT_FROM_HEADER).first()`. -/
def lookup_project_with_header_feature (db : Database) (slug : String) : Option Project :=
  (db.projects.filter
    (fun p => p.slug == slug && p.features.contains RESOLVE_PROJECT_FROM_HEADER)).head?

/-- Method `unresolve_domain_from_request`: honor a non-empty `X-RTD-Slug`
header (project must have the opt-in feature, otherwise
`InvalidXRTDSlugHeaderError`), and only fall back to host classification
when the header is absent or empty. -/
def unresolve_domain_from_request (cfg : Config) (db : Database) (request : Request) :
    Except UnresolverError UnresolvedDomain :=
  let host := get_domain_from_host request.host
  let header_project_slug := header_slug_of request
  if !header_project_slug.data.isEmpty then
    match lookup_project_with_header_feature db header_project_slug with
    | some project =>
      .ok { source_domain := host, source := .http_header, project := project }
    | none => .error .invalidXRTDSlugHeader
  else
    unresolve_domain cfg db host

/-- Method `_normalize_filename`: default a falsy filename to `/` and
left-pad a missing leading slash. -/
def normalize_filename (filename : Option String) : String :=
  let f := match filename with
    | none => "/"
    | some s => if s.data.isEmpty then "/" else s
  if f.data.head? = some '/' then f else String.mk ('/' :: f.data)

/-- Character class of a version slug segment. Modelled from the spec:
`pattern_opts` is not part of src/; the spec restricts slug segments to
alphanumerics, `-`, `_` and `.`. -/
def isVersionChar (c : Char) : Bool :=
  c.isAlphanum || c = '-' || c = '_' || c = '.'

/-- Character class of the file group. Modelled from the spec: the file
portion additionally admits `/`. -/
def isFileChar (c : Char) : Bool :=
  isVersionChar c || c = '/'

/-- Character class of a subproject alias (`project_slug`). Modelled from
the spec: alphanumerics, `-` and `_`. -/
def isProjectChar (c : Char) : Bool :=
  c.isAlphanum || c = '-' || c = '_'

/-- Structural match of `multiversion_pattern` against a path, returning
the `language`, `version` and `file` groups. The regex shape is
`/{language}(/({version}(/{file})?)?)?` anchored at both ends. Modelled
from the spec for the parts of the grammar not in src/: the language
alternation admits exactly the supported language codes (codes contain no
slash, so the language group is the first slash-delimited segment), the
version group is a non-empty run of slug characters, and the file group is
a possibly empty run of file characters. -/
def matchMultiversionPattern (languages : List String) (path : String) :
    Option (String × Option String × Option String) :=
  match path.data with
  | '/' :: rest =>
    let language := rest.takeWhile (fun c => c ≠ '/')
    if languages.contains (String.mk language) then
      match rest.drop language.length with
      | [] => some (String.mk language, none, none)
      | _ :: r2 =>
        if r2.isEmpty then some (String.mk language, none, none)
        else
          let version := r2.takeWhile isVersionChar
          if version.isEmpty then none
          else
            match r2.drop version.length with
            | [] => some (String.mk language, some (String.mk version), none)
            | '/' :: f =>
              if f.all isFileChar then
                some (String.mk language, some (String.mk version), some (String.mk f))
              else none
            | _ => none
    else none
  | _ => none

/-- Structural match of `subproject_pattern` against a path, returning the
`project` (alias) and `file` groups. The regex shape is
`/projects/{alias}(/{file})?` anchored at both ends. -/
def matchSubprojectPattern (path : String) : Option (String × Option String) :=
  match path.data with
  | '/' :: 'p' :: 'r' :: 'o' :: 'j' :: 'e' :: 'c' :: 't' :: 's' :: '/' :: rest =>
    let alias_group := rest.takeWhile isProjectChar
    if alias_group.isEmpty then none
    else
      match rest.drop alias_group.length with
      | [] => some (String.mk alias_group, none)
      | '/' :: f =>
        if f.all isFileChar then some (String.mk alias_group, some (String.mk f))
        else none
      | _ => none
  | _ => none

/-- Queryset `parent_project.translations.filter(language=language).first()`. -/
def lookup_translation (parent_project : Project) (language : String) : Option Project :=
  (parent_project.translations.filter (fun p => p.language == language)).head?

/-- Target project of a matched language segment: the parent itself when
the languages agree, otherwise the first translation with that language
(`none` reproduces the `TranslationNotFoundError` branch). -/
def resolved_target (parent_project : Project) (language : String) : Option Project :=
  if parent_project.language = language then some parent_project
  else lookup_translation parent_project language

/-- Queryset `project.versions(manager=manager).filter(slug=version_slug).first()`,
where `version_slug` may be Python `None` (then nothing matches). -/
def lookup_version (project : Project) (manager : Manager) (version_slug : Option String) :
    Option Version :=
  ((project.versions manager).filter (fun v => some v.slug == version_slug)).head?

/-- Queryset `parent_project.subprojects.filter(alias=alias).first()`
followed by taking the relationship's child project. -/
def lookup_subproject (parent_project : Project) (subproject_alias : String) : Option Project :=
  ((parent_project.subprojects.filter (fun r => r.1 == subproject_alias)).head?).map (fun r => r.2)

/-- Method `_match_multiversion_project`: `.ok none` is the Python `None`
return (no structural match), `.error` a raised exception, `.ok (some t)`
a successful resolution. The source's order is kept: pattern match, then
language resolution, then the external-version agreement check, then the
version lookup. -/
def match_multiversion_project (cfg : Config) (parent_project : Project) (path : String)
    (external_version_slug : Option String) :
    Except UnresolverError (Option (Project × Version × String)) :=
  match matchMultiversionPattern cfg.languages path with
  | none => .ok none
  | some (language, version_slug, file_group) =>
    let file := normalize_filename file_group
    match resolved_target parent_project language with
    | none => .error (.translationNotFound parent_project language file)
    | some project =>
      if truthy external_version_slug && external_version_slug != version_slug then
        .error (.invalidExternalVersion project version_slug
          (external_version_slug.getD ""))
      else
        let manager := if truthy external_version_slug then Manager.external else Manager.internal
        match lookup_version project manager version_slug with
        | none => .error (.versionNotFound project version_slug file)
        | some version => .ok (some (project, version, file))

/-- Method `_match_single_version_project`: any path matches; the version
slug is the external one when truthy (external manager), otherwise the
project's default version (internal manager). -/
def match_single_version_project (parent_project : Project) (path : String)
    (external_version_slug : Option String) :
    Except UnresolverError (Project × Version × String) :=
  let file := normalize_filename (some path)
  let slug_manager : String × Manager :=
    if truthy external_version_slug then (external_version_slug.getD "", Manager.external)
    else (parent_project.default_version, Manager.internal)
  match lookup_version parent_project slug_manager.2 (some slug_manager.1) with
  | none => .error (.versionNotFound parent_project (some slug_manager.1) file)
  | some version => .ok (parent_project, version, file)

/-- Method `_unresolve_path_with_parent_project`, with `_match_subproject`
inlined at its only call site: multiversion strategy first (skipped for
single-version projects), then the subproject strategy (skipped when
`check_subprojects` is false; on an alias match it recurses with
`check_subprojects := false`), then the single-version strategy, and
finally `InvalidPathForVersionedProjectError`. -/
def unresolve_path_with_parent_project (cfg : Config) (parent_project : Project) (path : String)
    (check_subprojects : Bool) (external_version_slug : Option String) :
    Except UnresolverError (Project × Version × String) :=
  let fallback : Except UnresolverError (Project × Version × String) :=
    if parent_project.single_version then
      match_single_version_project parent_project path external_version_slug
    else
      .error (.invalidPathForVersionedProject parent_project (normalize_filename (some path)))
  let multiversion_response : Except UnresolverError (Option (Project × Version × String)) :=
    if !parent_project.single_version then
      match_multiversion_project cfg parent_project path external_version_slug
    else
      .ok none
  match multiversion_response with
  | .error e => .error e
  | .ok (some response) => .ok response
  | .ok none =>
    match check_subprojects, matchSubprojectPattern path with
    | true, some (subproject_alias, file_group) =>
      match lookup_subproject parent_project subproject_alias with
      | some subproject =>
        unresolve_path_with_parent_project cfg subproject (normalize_filename file_group)
          false external_version_slug
      | none => fallback
    | _, _ => fallback
termination_by (if check_subprojects then 1 else 0)
decreasing_by simp

/-- Fuel-indexed variant of `unresolve_path_with_parent_project` with the
semantics of unbounded recursion: `none` means the call depth exceeded the
fuel. Used to state that the source's recursion depth is capped at two. -/
def unresolve_path_fuel (cfg : Config) (fuel : Nat) (parent_project : Project) (path : String)
    (check_subprojects : Bool) (external_version_slug : Option String) :
    Option (Except UnresolverError (Project × Version × String)) :=
  match fuel with
  | 0 => none
  | fuel + 1 =>
    let fallback : Except UnresolverError (Project × Version × String) :=
      if parent_project.single_version then
        match_single_version_project parent_project path external_version_slug
      else
        .error (.invalidPathForVersionedProject parent_project (normalize_filename (some path)))
    let multiversion_response : Except UnresolverError (Option (Project × Version × String)) :=
      if !parent_project.single_version then
        match_multiversion_project cfg parent_project path external_version_slug
      else
        .ok none
    match multiversion_response with
    | .error e => some (.error e)
    | .ok (some response) => some (.ok response)
    | .ok none =>
      match check_subprojects, matchSubprojectPattern path with
      | true, some (subproject_alias, file_group) =>
        match lookup_subproject parent_project subproject_alias with
        | some subproject =>
          unresolve_path_fuel cfg fuel subproject (normalize_filename file_group)
            false external_version_slug
        | none => some fallback
      | _, _ => some fallback

/-- Python `filename.endswith("/")`. -/
def endsWithSlash (s : String) : Bool :=
  s.data.getLast? = some '/'

/-- Method `_unresolve` reached through `unresolve_path`: resolve the path
against the classified domain's project, append `index.html` to a
directory filename (facade-level normalization), and build the
`UnresolvedURL`. -/
def unresolve_path (cfg : Config) (unresolved_domain : UnresolvedDomain) (path : String)
    (append_indexhtml : Bool) : Except UnresolverError UnresolvedURL :=
  match unresolve_path_with_parent_project cfg unresolved_domain.project path
      true unresolved_domain.external_version_slug with
  | .error e => .error e
  | .ok (current_project, version, filename) =>
    let final_filename :=
      if append_indexhtml && endsWithSlash filename then
        String.mk (filename.data ++ "index.html".data)
      else filename
    .ok { parent_project := unresolved_domain.project,
          project := current_project,
          version := version,
          filename := final_filename,
          parsed_path := path,
          domain := unresolved_domain.domain,
          external := unresolved_domain.is_from_external_domain }

/-- Sample internal version used by the concrete witnesses. -/
def vLatest : Version := { slug := "latest" }

/-- Sample multiversion project (language `en`, one internal version
`latest`, no translations, no subprojects). -/
def projA : Project :=
  .mk "docs" "en" false "latest" [] [] [vLatest] [] []

/-- Sample configuration with the platform's documented hosting suffixes
and a small supported-language set. -/
def cfg1 : Config :=
  { publicDomain := "readthedocs.io", externalDomain := "readthedocs.build",
    languages := ["en", "es"] }

/-- Sample database snapshot holding `projA`. -/
def db1 : Database := { projects := [projA], domains := [] }

/-- C1: path resolution commits to the first structurally matching
strategy. When the parent project is not single-version and the
multiversion pattern structurally matches the path but the matcher then
fails (version or translation lookup), the resolver raises exactly that
error and never falls through to the subproject or single-version
strategies. -/
theorem multiversion_structural_match_commits
    (cfg : Config) (parent_project : Project) (path : String) (check_subprojects : Bool)
    (external_version_slug : Option String) (e : UnresolverError)
    (hsingle : parent_project.single_version = false)
    (hshape : matchMultiversionPattern cfg.languages path ≠ none)
    (herr : match_multiversion_project cfg parent_project path external_version_slug
      = .error e) :
    unresolve_path_with_parent_project cfg parent_project path check_subprojects
      external_version_slug = .error e := by
  unfold unresolve_path_with_parent_project
  simp [hsingle, herr]

/-- Witness for C1: a concrete multiversion project whose version lookup
fails on a structurally matching path, and the resolver surfaces that
`VersionNotFoundError` unchanged. -/
theorem multiversion_structural_match_commits_witness :
    Project.single_version projA = false
    ∧ matchMultiversionPattern cfg1.languages "/en/nope/" ≠ none
    ∧ match_multiversion_project cfg1 projA "/en/nope/" none
        = .error (.versionNotFound projA (some "nope") "/")
    ∧ unresolve_path_with_parent_project cfg1 projA "/en/nope/" true none
        = .error (.versionNotFound projA (some "nope") "/") :=
  ⟨rfl, by decide, rfl,
    multiversion_structural_match_commits cfg1 projA "/en/nope/" true none
      (.versionNotFound projA (some "nope") "/") rfl (by decide) rfl⟩

/-- C5: when a truthy external version slug is supplied and the path's
matched version slug differs from it, the multiversion strategy fails with
`InvalidExternalVersionError` carrying both slugs; no assumption about the
project's versions is needed because the check precedes the version
lookup, so the failure can never be a `VersionNotFoundError`. -/
theorem external_version_mismatch_commits
    (cfg : Config) (parent_project project : Project) (path : String)
    (check_subprojects : Bool) (external_version_slug language : String)
    (version_slug file_group : Option String)
    (hsingle : parent_project.single_version = false)
    (hshape : matchMultiversionPattern cfg.languages path
      = some (language, version_slug, file_group))
    (htarget : resolved_target parent_project language = some project)
    (hevs : truthy (some external_version_slug) = true)
    (hmismatch : some external_version_slug ≠ version_slug) :
    unresolve_path_with_parent_project cfg parent_project path check_subprojects
      (some external_version_slug)
      = .error (.invalidExternalVersion project version_slug external_version_slug) := by
  unfold unresolve_path_with_parent_project
  simp [hsingle, match_multiversion_project, hshape, htarget, hevs, bne_iff_ne, hmismatch]

/-- Witness for C5: a PR-preview slug `pr-42` against a path that encodes
`pr-43` fails with the mismatch error even though neither slug names an
existing version. -/
theorem external_version_mismatch_commits_witness :
    Project.single_version projA = false
    ∧ matchMultiversionPattern cfg1.languages "/en/pr-43/"
        = some ("en", some "pr-43", some "")
    ∧ resolved_target projA "en" = some projA
    ∧ unresolve_path_with_parent_project cfg1 projA "/en/pr-43/" true (some "pr-42")
        = .error (.invalidExternalVersion projA (some "pr-43") "pr-42") :=
  ⟨rfl, by decide, rfl,
    external_version_mismatch_commits cfg1 projA projA "/en/pr-43/" true "pr-42" "en"
      (some "pr-43") (some "") rfl (by decide) rfl rfl (by decide)⟩

/-- Evaluation of the multiversion pattern on the nested subproject path:
its first segment is `projects`, so it structurally matches only when
`projects` were a supported language code. -/
theorem matchMultiversionPattern_nested_path (languages : List String) :
    matchMultiversionPattern languages "/projects/sub/projects/sub2/"
      = if languages.contains "projects"
        then some ("projects", some "sub", some "projects/sub2/") else none := rfl

/-- Evaluation of the multiversion pattern on the inner subproject path. -/
theorem matchMultiversionPattern_inner_path (languages : List String) :
    matchMultiversionPattern languages "/projects/sub2/"
      = if languages.contains "projects"
        then some ("projects", some "sub2", some "") else none := rfl

/-- C7: resolving `/projects/sub/projects/sub2/` against a parent project
with a subproject aliased `sub` (which itself has a subproject `sub2`)
fails with `InvalidPathForVersionedProjectError` raised from `sub`: the
recursive call disables subproject matching, so the resolver never
recurses into `sub2`. -/
theorem subproject_of_subproject_rejected
    (cfg : Config) (parent_project sub sub2 : Project) (external_version_slug : Option String)
    (hlang : cfg.languages.contains "projects" = false)
    (hrel : lookup_subproject parent_project "sub" = some sub)
    (hrel2 : lookup_subproject sub "sub2" = some sub2)
    (hsv : sub.single_version = false) :
    unresolve_path_with_parent_project cfg parent_project "/projects/sub/projects/sub2/" true
      external_version_slug
      = .error (.invalidPathForVersionedProject sub "/projects/sub2/") := by
  have hmem : "projects" ∉ cfg.languages := by simpa using hlang
  have hn1 : normalize_filename (some "projects/sub2/") = "/projects/sub2/" := rfl
  have hn2 : normalize_filename (some "/projects/sub2/") = "/projects/sub2/" := rfl
  have hsp1 : matchSubprojectPattern "/projects/sub/projects/sub2/"
      = some ("sub", some "projects/sub2/") := rfl
  have hrec : unresolve_path_with_parent_project cfg sub "/projects/sub2/" false
      external_version_slug
      = .error (.invalidPathForVersionedProject sub "/projects/sub2/") := by
    unfold unresolve_path_with_parent_project
    simp [hsv, match_multiversion_project, matchMultiversionPattern_inner_path, hmem, hn2]
  unfold unresolve_path_with_parent_project
  cases hpv : parent_project.single_version with
  | false =>
    simp [hpv, match_multiversion_project, matchMultiversionPattern_nested_path, hmem,
      hsp1, hrel, hn1, hrec]
  | true =>
    simp [hpv, hsp1, hrel, hn1, hrec]

/-- Child of the sample subproject chain: `sub2`. -/
def projSub2 : Project :=
  .mk "sub2" "en" false "latest" [] [] [vLatest] [] []

/-- Middle project of the sample subproject chain: `sub`, which has `sub2`
as a subproject. -/
def projSub : Project :=
  .mk "sub" "en" false "latest" [] [("sub2", projSub2)] [vLatest] [] []

/-- Top project of the sample subproject chain, with subproject `sub`. -/
def projTop : Project :=
  .mk "top" "en" false "latest" [] [("sub", projSub)] [vLatest] [] []

/-- Witness for C7 on the concrete three-level project chain. -/
theorem subproject_of_subproject_rejected_witness :
    cfg1.languages.contains "projects" = false
    ∧ lookup_subproject projTop "sub" = some projSub
    ∧ lookup_subproject projSub "sub2" = some projSub2
    ∧ unresolve_path_with_parent_project cfg1 projTop "/projects/sub/projects/sub2/" true none
        = .error (.invalidPathForVersionedProject projSub "/projects/sub2/") :=
  ⟨by decide, rfl, rfl,
    subproject_of_subproject_rejected cfg1 projTop projSub projSub2 none
      (by decide) rfl rfl rfl⟩

/-- With subproject matching disabled no recursive call is made, so one
unit of fuel already reproduces the total resolver. -/
theorem unresolve_path_fuel_no_subprojects (cfg : Config) (fuel : Nat)
    (parent_project : Project) (path : String) (external_version_slug : Option String) :
    unresolve_path_fuel cfg (fuel + 1) parent_project path false external_version_slug
      = some (unresolve_path_with_parent_project cfg parent_project path false
          external_version_slug) := by
  unfold unresolve_path_fuel unresolve_path_with_parent_project
  rcases hm : (if !parent_project.single_version then
      match_multiversion_project cfg parent_project path external_version_slug
    else .ok none) with e | o
  · simp [hm]
  · cases o with
    | some r => simp [hm]
    | none => simp [hm]

/-- C8: the path resolver terminates with recursion depth capped at one
level: the fuel-indexed variant, which models unbounded recursion and
returns `none` on fuel exhaustion, agrees with the total resolver for
every fuel of at least 2 — the source's single recursive call passes
`check_subprojects=False`, so the worst-case call depth is 2. -/
theorem subproject_recursion_depth_bounded
    (cfg : Config) (parent_project : Project) (path : String) (check_subprojects : Bool)
    (external_version_slug : Option String) (fuel : Nat) (hfuel : 2 ≤ fuel) :
    unresolve_path_fuel cfg fuel parent_project path check_subprojects external_version_slug
      = some (unresolve_path_with_parent_project cfg parent_project path check_subprojects
          external_version_slug) := by
  obtain ⟨f, rfl⟩ : ∃ f, fuel = (f + 1) + 1 := ⟨fuel - 2, by omega⟩
  cases check_subprojects with
  | false =>
    exact unresolve_path_fuel_no_subprojects cfg (f + 1) parent_project path
      external_version_slug
  | true =>
    unfold unresolve_path_fuel unresolve_path_with_parent_project
    rcases hm : (if !parent_project.single_version then
        match_multiversion_project cfg parent_project path external_version_slug
      else .ok none) with e | o
    · simp [hm]
    · cases o with
      | some r => simp [hm]
      | none =>
        simp only [hm]
        rcases hs : matchSubprojectPattern path with _ | ⟨subproject_alias, file_group⟩
        · simp [hs]
        · rcases hl : lookup_subproject parent_project subproject_alias with _ | sub
          · simp [hs, hl]
          · simp [hs, hl, unresolve_path_fuel_no_subprojects]

/-- Witness for C8 at fuel 2 on a concrete subproject resolution that uses
the full depth (one recursive call into the subproject). -/
theorem subproject_recursion_depth_bounded_witness :
    unresolve_path_fuel cfg1 2 projTop "/projects/sub/en/latest/" true none
      = some (unresolve_path_with_parent_project cfg1 projTop "/projects/sub/en/latest/"
          true none)
    ∧ unresolve_path_with_parent_project cfg1 projTop "/projects/sub/en/latest/" true none
      = .ok (projSub, vLatest, "/") :=
  ⟨subproject_recursion_depth_bounded cfg1 projTop "/projects/sub/en/latest/" true none 2
      (by decide),
   by unfold unresolve_path_with_parent_project unresolve_path_with_parent_project; rfl⟩

/-- C2: a host that contains a configured hosting suffix (public or
external-preview) as a substring without that suffix being exactly its
root domain is classified as suspicious: `unresolve_domain` fails with
`SuspiciousHostnameError` carrying the domain string and never reaches the
custom-domain lookup. When the host contains both suffixes the root domain
must differ from each contained suffix. -/
theorem lookalike_host_suspicious
    (cfg : Config) (db : Database) (domain : String)
    (hsome : containsSubstring domain (get_domain_from_host cfg.publicDomain) = true
      ∨ containsSubstring domain (get_domain_from_host cfg.externalDomain) = true)
    (hpub : containsSubstring domain (get_domain_from_host cfg.publicDomain) = true →
      rootDomainOf domain ≠ get_domain_from_host cfg.publicDomain)
    (hext : containsSubstring domain (get_domain_from_host cfg.externalDomain) = true →
      rootDomainOf domain ≠ get_domain_from_host cfg.externalDomain) :
    unresolve_domain cfg db domain = .error (.suspiciousHostname domain) := by
  unfold unresolve_domain
  cases h1 : containsSubstring domain (get_domain_from_host cfg.publicDomain) with
  | true =>
    have hne : ¬(get_domain_from_host cfg.publicDomain = rootDomainOf domain) :=
      fun hh => hpub h1 hh.symm
    simp [h1, hne]
  | false =>
    have h2 : containsSubstring domain (get_domain_from_host cfg.externalDomain) = true := by
      rcases hsome with hp | he
      · rw [h1] at hp
        exact Bool.noConfusion hp
      · exact he
    have hne : ¬(get_domain_from_host cfg.externalDomain = rootDomainOf domain) :=
      fun hh => hext h2 hh.symm
    simp [h1, h2, hne]

/-- Witness for C2: a deceptive host embedding the public suffix with a
different root domain is rejected as suspicious. -/
theorem lookalike_host_suspicious_witness :
    containsSubstring "docs.readthedocs.io.evil.com"
        (get_domain_from_host cfg1.publicDomain) = true
    ∧ rootDomainOf "docs.readthedocs.io.evil.com" = "readthedocs.io.evil.com"
    ∧ unresolve_domain cfg1 db1 "docs.readthedocs.io.evil.com"
        = .error (.suspiciousHostname "docs.readthedocs.io.evil.com") :=
  ⟨by decide, by decide,
    lookalike_host_suspicious cfg1 db1 "docs.readthedocs.io.evil.com"
      (Or.inl (by decide)) (fun _ => by decide) (fun h => absurd h (by decide))⟩

/-- Reflexivity of the boolean prefix test on character lists. -/
theorem isPrefixOf_self (l : List Char) : l.isPrefixOf l = true := by
  induction l with
  | nil => rfl
  | cons a t ih => simp [List.isPrefixOf, ih]

/-- Length bound of `takeWhile`, used to place the root domain occurrence
in range. -/
theorem length_takeWhile_le {α : Type} (p : α → Bool) (l : List α) :
    (l.takeWhile p).length ≤ l.length := by
  induction l with
  | nil => simp
  | cons a t ih =>
    by_cases h : p a
    · simp [List.takeWhile_cons, h]
      omega
    · simp [List.takeWhile_cons, h]

/-- Substring containment follows from an occurrence at any in-range
position. -/
theorem containsSubstring_of_prefix_at (s pattern : String) (i : Nat)
    (h : pattern.data.isPrefixOf (s.data.drop i) = true) (hi : i ≤ s.data.length) :
    containsSubstring s pattern = true := by
  unfold containsSubstring
  by_cases he : pattern.data.isEmpty
  · simp [he]
  · rw [if_neg (by simpa using he)]
    exact List.any_eq_true.mpr ⟨i, List.mem_range.mpr (by omega), h⟩

/-- Every host contains its own root domain as a substring, so reaching
the suffix branches of `unresolve_domain` is automatic once the root
domain equals the suffix. -/
theorem containsSubstring_rootDomain (domain : String) :
    containsSubstring domain (rootDomainOf domain) = true := by
  unfold rootDomainOf
  by_cases hkl : (domain.data.takeWhile (fun c => c ≠ '.')).length = domain.data.length
  · rw [if_pos hkl]
    rfl
  · rw [if_neg hkl]
    refine containsSubstring_of_prefix_at domain
      (String.mk (domain.data.drop ((domain.data.takeWhile (fun c => c ≠ '.')).length + 1)))
      ((domain.data.takeWhile (fun c => c ≠ '.')).length + 1) (isPrefixOf_self _) ?_
    have hle : (domain.data.takeWhile (fun c => c ≠ '.')).length ≤ domain.data.length :=
      length_takeWhile_le _ _
    omega

/-- Once the public suffix does not occur in the host and the root domain
equals the external suffix, `unresolve_domain` reduces to the external
branch: split the subdomain at the last `--` and resolve the project slug. -/
theorem unresolve_domain_external_root
    (cfg : Config) (db : Database) (domain : String)
    (hnp : containsSubstring domain (get_domain_from_host cfg.publicDomain) = false)
    (hroot : rootDomainOf domain = get_domain_from_host cfg.externalDomain) :
    unresolve_domain cfg db domain =
      (match rsplitOnce (subdomainOf domain) "--" with
       | some (project_slug, version_slug) =>
         (resolve_project_slug db project_slug domain).map (fun p =>
           { source_domain := domain, source := .external_domain, project := p,
             external_version_slug := some version_slug })
       | none => .error (.invalidExternalDomain domain)) := by
  have hce : containsSubstring domain (get_domain_from_host cfg.externalDomain) = true := by
    rw [← hroot]
    exact containsSubstring_rootDomain domain
  unfold unresolve_domain
  simp [hnp, hce, hroot]

/-- C3: for a host whose root domain equals the external-preview suffix
(and which does not contain the public suffix, which is checked first),
the first label is split at the last `--` into project and version slugs;
a missing separator yields `InvalidExternalDomainError`, an unknown
project slug yields `InvalidSubdomainError`, and otherwise classification
succeeds with `source=external_domain` and the split-off version slug. -/
theorem external_domain_classification
    (cfg : Config) (db : Database) (domain : String)
    (hnp : containsSubstring domain (get_domain_from_host cfg.publicDomain) = false)
    (hroot : rootDomainOf domain = get_domain_from_host cfg.externalDomain) :
    (rsplitOnce (subdomainOf domain) "--" = none →
      unresolve_domain cfg db domain = .error (.invalidExternalDomain domain))
    ∧ (∀ project_slug version_slug,
        rsplitOnce (subdomainOf domain) "--" = some (project_slug, version_slug) →
        (lookup_project db project_slug = none →
          unresolve_domain cfg db domain = .error (.invalidSubdomain domain))
        ∧ (∀ p, lookup_project db project_slug = some p →
            unresolve_domain cfg db domain =
              .ok { source_domain := domain, source := .external_domain, project := p,
                    domain := none, external_version_slug := some version_slug })) := by
  have h := unresolve_domain_external_root cfg db domain hnp hroot
  constructor
  · intro hsplit
    rw [h, hsplit]
  · intro project_slug version_slug hsplit
    constructor
    · intro hnone
      rw [h, hsplit]
      simp [resolve_project_slug, hnone, Except.map]
    · intro p hp
      rw [h, hsplit]
      simp [resolve_project_slug, hp, Except.map]

/-- Witness for C3: `docs--pr1.readthedocs.build` classifies as an
external domain for project `docs` with version slug `pr1`. -/
theorem external_domain_classification_witness :
    rsplitOnce (subdomainOf "docs--pr1.readthedocs.build") "--" = some ("docs", "pr1")
    ∧ lookup_project db1 "docs" = some projA
    ∧ unresolve_domain cfg1 db1 "docs--pr1.readthedocs.build"
        = .ok { source_domain := "docs--pr1.readthedocs.build",
                source := .external_domain, project := projA,
                domain := none, external_version_slug := some "pr1" } :=
  ⟨by decide, rfl,
    (((external_domain_classification cfg1 db1 "docs--pr1.readthedocs.build"
        (by decide) (by decide)).2 "docs" "pr1" (by decide)).2 projA rfl)⟩

/-- C9: every `UnresolvedDomain` produced by `unresolve_domain` or by
`unresolve_domain_from_request` satisfies the dataclass invariant: the
`domain` field is non-null exactly for `custom_domain` sources, and the
`external_version_slug` field is non-null exactly for `external_domain`
sources. -/
theorem unresolved_domain_source_invariant (cfg : Config) (db : Database) :
    (∀ domain u, unresolve_domain cfg db domain = .ok u →
      ((u.domain ≠ none ↔ u.source = DomainSourceType.custom_domain)
       ∧ (u.external_version_slug ≠ none ↔ u.source = DomainSourceType.external_domain)))
    ∧ (∀ request u, unresolve_domain_from_request cfg db request = .ok u →
      ((u.domain ≠ none ↔ u.source = DomainSourceType.custom_domain)
       ∧ (u.external_version_slug ≠ none ↔ u.source = DomainSourceType.external_domain))) := by
  have base : ∀ domain u, unresolve_domain cfg db domain = .ok u →
      ((u.domain ≠ none ↔ u.source = DomainSourceType.custom_domain)
       ∧ (u.external_version_slug ≠ none ↔ u.source = DomainSourceType.external_domain)) := by
    intro domain u hu
    simp only [unresolve_domain, resolve_project_slug] at hu
    repeat' split at hu
    all_goals try simp only [Except.map] at hu
    all_goals cases hu
    all_goals simp
  refine ⟨base, ?_⟩
  intro request u hu
  simp only [unresolve_domain_from_request] at hu
  split at hu
  · split at hu
    · cases hu
      simp
    · exact absurd hu (by simp)
  · exact base _ u hu

/-- Classification result of the sample public-domain host. -/
def udPub : UnresolvedDomain :=
  { source_domain := "docs.readthedocs.io", source := .public_domain, project := projA }

/-- Witness for C9 on the concrete public-domain classification of
`docs.readthedocs.io`. -/
theorem unresolved_domain_source_invariant_witness :
    (udPub.domain ≠ none ↔ udPub.source = DomainSourceType.custom_domain)
    ∧ (udPub.external_version_slug ≠ none ↔ udPub.source = DomainSourceType.external_domain) :=
  (unresolved_domain_source_invariant cfg1 db1).1 "docs.readthedocs.io" udPub rfl

/-- Membership consequence of a successful first-match filter lookup:
the found element satisfies the filter predicate. -/
theorem head_filter_pred {α : Type} (p : α → Bool) (l : List α) (a : α)
    (h : (l.filter p).head? = some a) : p a = true := by
  have hmem : a ∈ l.filter p := by
    have := List.mem_of_mem_head? (l := l.filter p) (a := a)
    exact this (by rw [h]; rfl)
  exact (List.mem_filter.mp hmem).2

/-- C4: when the `X-RTD-Slug` header is present and non-empty, the request
is resolved purely from the header: a project with the (lowercased) header
slug and the opt-in feature yields an `http_header` classification, and
otherwise the call fails with `InvalidXRTDSlugHeaderError` without falling
back to host-based classification. Only an absent or empty header
delegates to `unresolve_domain` on the host. -/
theorem header_slug_override (cfg : Config) (db : Database) (request : Request) :
    ((header_slug_of request).data.isEmpty = false →
      (∀ p, lookup_project_with_header_feature db (header_slug_of request) = some p →
        unresolve_domain_from_request cfg db request
          = .ok { source_domain := get_domain_from_host request.host,
                  source := .http_header, project := p }
        ∧ p.slug = header_slug_of request
        ∧ p.features.contains RESOLVE_PROJECT_FROM_HEADER = true)
      ∧ (lookup_project_with_header_feature db (header_slug_of request) = none →
        unresolve_domain_from_request cfg db request = .error .invalidXRTDSlugHeader))
    ∧ ((header_slug_of request).data.isEmpty = true →
      unresolve_domain_from_request cfg db request
        = unresolve_domain cfg db (get_domain_from_host request.host)) := by
  constructor
  · intro hne
    constructor
    · intro p hp
      have hpred := head_filter_pred _ _ _ hp
      rw [Bool.and_eq_true] at hpred
      refine ⟨?_, by simpa using hpred.1, hpred.2⟩
      unfold unresolve_domain_from_request
      simp [hne, hp]
    · intro hnone
      unfold unresolve_domain_from_request
      simp [hne, hnone]
  · intro hempty
    unfold unresolve_domain_from_request
    simp [hempty]

/-- Project opted into header-based resolution, used by the C4 witness. -/
def projHdr : Project :=
  .mk "hdr" "en" false "latest" [] [] [vLatest] [] [RESOLVE_PROJECT_FROM_HEADER]

/-- Database containing the header-feature project. -/
def db2 : Database := { projects := [projA, projHdr], domains := [] }

/-- Request carrying an `X-RTD-Slug` header, used by the C4 witness. -/
def reqHdr : Request := { host := "docs.example.com", x_rtd_slug_header := some "HDR" }

/-- Witness for C4: a request with header `HDR` resolves to the opted-in
project `hdr` regardless of its host. -/
theorem header_slug_override_witness :
    (header_slug_of reqHdr).data.isEmpty = false
    ∧ unresolve_domain_from_request cfg1 db2 reqHdr
        = .ok { source_domain := "docs.example.com", source := .http_header,
                project := projHdr }
    ∧ Project.slug projHdr = header_slug_of reqHdr
    ∧ (Project.features projHdr).contains RESOLVE_PROJECT_FROM_HEADER = true :=
  ⟨rfl,
    (((header_slug_override cfg1 db2 reqHdr).1 rfl).1 projHdr rfl).1,
    (((header_slug_override cfg1 db2 reqHdr).1 rfl).1 projHdr rfl).2.1,
    (((header_slug_override cfg1 db2 reqHdr).1 rfl).1 projHdr rfl).2.2⟩

/-- Evaluation of the multiversion pattern on `/en/latest/foo/bar.html`. -/
theorem matchMultiversionPattern_en_latest_file (languages : List String) :
    matchMultiversionPattern languages "/en/latest/foo/bar.html"
      = if languages.contains "en"
        then some ("en", some "latest", some "foo/bar.html") else none := rfl

/-- Evaluation of the multiversion pattern on the directory path
`/en/latest/`. -/
theorem matchMultiversionPattern_en_latest_dir (languages : List String) :
    matchMultiversionPattern languages "/en/latest/"
      = if languages.contains "en"
        then some ("en", some "latest", some "") else none := rfl

/-- Successful multiversion resolution without an external version slug:
the matched language's target project and the internal version lookup
determine the result. -/
theorem match_multiversion_project_resolves
    (cfg : Config) (parent_project tgt : Project) (v : Version)
    (path language : String) (version_slug file_group : Option String)
    (hshape : matchMultiversionPattern cfg.languages path
      = some (language, version_slug, file_group))
    (htarget : resolved_target parent_project language = some tgt)
    (hver : lookup_version tgt Manager.internal version_slug = some v) :
    match_multiversion_project cfg parent_project path none
      = .ok (some (tgt, v, normalize_filename file_group)) := by
  unfold match_multiversion_project
  rw [hshape]
  simp [htarget, truthy, hver]

/-- C6: resolving `/en/latest/foo/bar.html` against a non-single-version
parent whose language (or one of whose translations) is `en` and whose
target has internal version `latest` yields that target, version `latest`
and filename `/foo/bar.html`; the directory path `/en/latest/` yields
filename `/index.html` after the facade appends `index.html`, while the
path resolver itself returns the bare `/` (the append happens once, in the
facade, not inside the matchers). -/
theorem round_trip_multiversion
    (cfg : Config) (ud : UnresolvedDomain) (tgt : Project) (v : Version)
    (hsingle : ud.project.single_version = false)
    (hen : cfg.languages.contains "en" = true)
    (htarget : resolved_target ud.project "en" = some tgt)
    (hevs : ud.external_version_slug = none)
    (hver : lookup_version tgt Manager.internal (some "latest") = some v) :
    unresolve_path cfg ud "/en/latest/foo/bar.html" true
      = .ok { parent_project := ud.project, project := tgt, version := v,
              filename := "/foo/bar.html", parsed_path := "/en/latest/foo/bar.html",
              domain := ud.domain, external := ud.is_from_external_domain }
    ∧ unresolve_path cfg ud "/en/latest/" true
      = .ok { parent_project := ud.project, project := tgt, version := v,
              filename := "/index.html", parsed_path := "/en/latest/",
              domain := ud.domain, external := ud.is_from_external_domain }
    ∧ unresolve_path_with_parent_project cfg ud.project "/en/latest/" true none
      = .ok (tgt, v, "/") := by
  have hmem : "en" ∈ cfg.languages := by simpa using hen
  have hshape1 : matchMultiversionPattern cfg.languages "/en/latest/foo/bar.html"
      = some ("en", some "latest", some "foo/bar.html") := by
    rw [matchMultiversionPattern_en_latest_file]
    simp [hmem]
  have hshape2 : matchMultiversionPattern cfg.languages "/en/latest/"
      = some ("en", some "latest", some "") := by
    rw [matchMultiversionPattern_en_latest_dir]
    simp [hmem]
  have hm1 := match_multiversion_project_resolves cfg ud.project tgt v
    "/en/latest/foo/bar.html" "en" (some "latest") (some "foo/bar.html") hshape1 htarget hver
  have hm2 := match_multiversion_project_resolves cfg ud.project tgt v
    "/en/latest/" "en" (some "latest") (some "") hshape2 htarget hver
  rw [show normalize_filename (some "foo/bar.html") = "/foo/bar.html" from rfl] at hm1
  rw [show normalize_filename (some "") = "/" from rfl] at hm2
  have hp1 : unresolve_path_with_parent_project cfg ud.project "/en/latest/foo/bar.html"
      true none = .ok (tgt, v, "/foo/bar.html") := by
    unfold unresolve_path_with_parent_project
    simp [hsingle, hm1]
  have hp2 : unresolve_path_with_parent_project cfg ud.project "/en/latest/" true none
      = .ok (tgt, v, "/") := by
    unfold unresolve_path_with_parent_project
    simp [hsingle, hm2]
  refine ⟨?_, ?_, hp2⟩
  · unfold unresolve_path
    rw [hevs, hp1]
    rfl
  · unfold unresolve_path
    rw [hevs, hp2]
    rfl

/-- Witness for C6 on the concrete project `projA` with internal version
`latest`. -/
theorem round_trip_multiversion_witness :
    Project.single_version projA = false
    ∧ resolved_target projA "en" = some projA
    ∧ lookup_version projA Manager.internal (some "latest") = some vLatest
    ∧ unresolve_path cfg1 udPub "/en/latest/foo/bar.html" true
        = .ok { parent_project := projA, project := projA, version := vLatest,
                filename := "/foo/bar.html", parsed_path := "/en/latest/foo/bar.html",
                domain := none, external := false }
    ∧ unresolve_path cfg1 udPub "/en/latest/" true
        = .ok { parent_project := projA, project := projA, version := vLatest,
                filename := "/index.html", parsed_path := "/en/latest/",
                domain := none, external := false } :=
  ⟨rfl, rfl, rfl,
    (round_trip_multiversion cfg1 udPub projA vLatest rfl (by decide) rfl rfl rfl).1,
    (round_trip_multiversion cfg1 udPub projA vLatest rfl (by decide) rfl rfl rfl).2.1⟩

/-- Python truthiness of the empty string is false, so an empty external
version slug is indistinguishable from an absent one in every check of the
multiversion matcher. -/
theorem match_multiversion_project_empty_slug (cfg : Config) (parent_project : Project)
    (path : String) :
    match_multiversion_project cfg parent_project path (some "")
      = match_multiversion_project cfg parent_project path none := rfl

/-- The single-version matcher likewise treats an empty external version
slug as absent: the default version is looked up in the internal manager. -/
theorem match_single_version_project_empty_slug (parent_project : Project) (path : String) :
    match_single_version_project parent_project path (some "")
      = match_single_version_project parent_project path none := rfl

/-- With subproject matching disabled, the whole resolver treats an empty
external version slug as absent. -/
theorem unresolve_path_empty_slug_no_sub (cfg : Config) (parent_project : Project)
    (path : String) :
    unresolve_path_with_parent_project cfg parent_project path false (some "")
      = unresolve_path_with_parent_project cfg parent_project path false none := by
  unfold unresolve_path_with_parent_project
  simp only [match_multiversion_project_empty_slug, match_single_version_project_empty_slug]

/-- The resolver treats an empty external version slug exactly as an
absent one, for either value of `check_subprojects`. -/
theorem unresolve_path_empty_slug (cfg : Config) (parent_project : Project) (path : String)
    (check_subprojects : Bool) :
    unresolve_path_with_parent_project cfg parent_project path check_subprojects (some "")
      = unresolve_path_with_parent_project cfg parent_project path check_subprojects none := by
  cases check_subprojects with
  | false => exact unresolve_path_empty_slug_no_sub cfg parent_project path
  | true =>
    unfold unresolve_path_with_parent_project
    simp only [match_multiversion_project_empty_slug, match_single_version_project_empty_slug,
      unresolve_path_empty_slug_no_sub]

/-- C10: a host whose first label ends in `--` (separator present, empty
version part) classifies successfully as an external domain with
`external_version_slug` equal to the empty string rather than failing;
path resolution then treats the empty slug exactly as an absent one
(internal version lookup, no mismatch check), while the facade still marks
the result `external` for external-domain sources. -/
theorem empty_external_version_slug_behavior (cfg : Config) (db : Database) :
    (∀ domain s p,
      containsSubstring domain (get_domain_from_host cfg.publicDomain) = false →
      rootDomainOf domain = get_domain_from_host cfg.externalDomain →
      rsplitOnce (subdomainOf domain) "--" = some (s, "") →
      lookup_project db s = some p →
      unresolve_domain cfg db domain =
        .ok { source_domain := domain, source := .external_domain, project := p,
              domain := none, external_version_slug := some "" })
    ∧ (∀ parent_project path check_subprojects,
      unresolve_path_with_parent_project cfg parent_project path check_subprojects (some "")
        = unresolve_path_with_parent_project cfg parent_project path check_subprojects none)
    ∧ (∀ ud path u, ud.source = DomainSourceType.external_domain →
      unresolve_path cfg ud path true = .ok u → u.external = true) := by
  refine ⟨?_, ?_, ?_⟩
  · intro domain s p hnp hroot hsplit hp
    rw [unresolve_domain_external_root cfg db domain hnp hroot, hsplit]
    simp [resolve_project_slug, hp, Except.map]
  · intro parent_project path check_subprojects
    exact unresolve_path_empty_slug cfg parent_project path check_subprojects
  · intro ud path u hsrc hu
    unfold unresolve_path at hu
    split at hu
    · exact absurd hu (by simp)
    · cases hu
      simp [UnresolvedDomain.is_from_external_domain, hsrc]

/-- Classification result of the sample external host with an empty
version part. -/
def udEmptySlug : UnresolvedDomain :=
  { source_domain := "docs--.readthedocs.build", source := .external_domain,
    project := projA, domain := none, external_version_slug := some "" }

/-- Witness for C10: `docs--.readthedocs.build` classifies with an empty
external version slug, the resolver then behaves as with no slug at all,
and the facade result keeps `external := true`. -/
theorem empty_external_version_slug_behavior_witness :
    unresolve_domain cfg1 db1 "docs--.readthedocs.build" = .ok udEmptySlug
    ∧ unresolve_path_with_parent_project cfg1 projA "/en/latest/" true (some "")
        = unresolve_path_with_parent_project cfg1 projA "/en/latest/" true none
    ∧ unresolve_path cfg1 udEmptySlug "/en/latest/" true
        = .ok { parent_project := projA, project := projA, version := vLatest,
                filename := "/index.html", parsed_path := "/en/latest/",
                domain := none, external := true } :=
  ⟨(empty_external_version_slug_behavior cfg1 db1).1 "docs--.readthedocs.build" "docs"
      projA (by decide) (by decide) (by decide) rfl,
   (empty_external_version_slug_behavior cfg1 db1).2.1 projA "/en/latest/" true,
   by
    have h := (empty_external_version_slug_behavior cfg1 db1).2.1 projA "/en/latest/" true
    unfold unresolve_path
    rw [show UnresolvedDomain.external_version_slug udEmptySlug = some "" from rfl] at *
    rw [show UnresolvedDomain.project udEmptySlug = projA from rfl] at *
    rw [h]
    rw [show unresolve_path_with_parent_project cfg1 projA "/en/latest/" true none
      = .ok (projA, vLatest, "/") from by
        unfold unresolve_path_with_parent_project
        rfl]
    rfl⟩
